import Mathlib

/-!
Verification of the PBR Battery Shipment admission controller.

Shallow embedding of the relevant server code:
* `server/models/Contract.js` — the Contract document, its virtuals
  (`thresholdPercentage`, `status`) and instance methods (`canShip`,
  `shipBatteries`, `addNotification`);
* `server/routes/shipments.js` (second document of
  `server/middleware/auth.js` in this snapshot) — the `POST /` admission
  route, including its Shipment record, response codes and the order of
  its external calls (transaction, Redis lock, ledger reads/writes,
  post-commit notification and email, socket emits);
* `server/services/lockService.js` (in `src/unnamed/part_003`) — the
  Redis lock: `acquireLock` (SET NX PX), `releaseLock` (DEL),
  `extendLock`;
* `server/routes/contracts.js` (in `src/unnamed/part_002`) — the
  list-contracts aggregation pipeline's `$addFields` status computation.

Numbers held in Mongo documents are embedded as `Nat` (the schema
constrains them to non-negative integers: `batteriesShipped` min 0,
`threshold` min 1, quantities min 1); the ratio arithmetic of the status
virtual is embedded exactly over `ℚ`.  Presentation-only Contract fields
(clientName, priority, tags, dates, user references, timestamps) do not
influence any modelled operation and are omitted; `lastUpdated` is a
wall-clock timestamp and is likewise outside the model.
-/

/-- One entry of `notificationsSent` (notificationSchema, Contract.js:3-22):
recipient email, message, and category type. The timestamp is wall-clock
and not modelled. -/
structure ContractNotification where
  email : String
  message : String
  ntype : String
deriving Repr, DecidableEq

/-- The Contract document (contractSchema, Contract.js:24-89), restricted to
the fields that the admission route, the virtuals and the aggregation
pipeline read or write. -/
structure Contract where
  contractId : String
  deviceCount : Nat
  batteriesShipped : Nat
  threshold : Nat
  isLocked : Bool
  notificationsSent : List ContractNotification
deriving Repr, DecidableEq

namespace Contract

/-- Virtual `thresholdPercentage` (Contract.js:92-94):
`threshold > 0 ? (batteriesShipped / threshold) * 100 : 0`. -/
def thresholdPercentage (c : Contract) : ℚ :=
  if 0 < c.threshold then ((c.batteriesShipped : ℚ) / (c.threshold : ℚ)) * 100 else 0

/-- Virtual `remainingCapacity` (Contract.js:97-99):
`Math.max(0, threshold - batteriesShipped)` (truncated subtraction on ℕ). -/
def remainingCapacity (c : Contract) : Nat :=
  c.threshold - c.batteriesShipped

/-- Virtual `status` (Contract.js:102-107): LOCKED if `isLocked`, else
EXCEEDED / WARNING by `thresholdPercentage`, else ACTIVE. -/
def status (c : Contract) : String :=
  if c.isLocked then "LOCKED"
  else if c.thresholdPercentage ≥ 100 then "EXCEEDED"
  else if c.thresholdPercentage ≥ 80 then "WARNING"
  else "ACTIVE"

/-- Instance method `canShip` (Contract.js:133-136). -/
def canShip (c : Contract) (quantity : Nat) : Bool :=
  if c.isLocked then false
  else c.batteriesShipped + quantity ≤ c.threshold

/-- Instance method `shipBatteries` (Contract.js:139-161): the conditional
atomic `findOneAndUpdate` — matches the document only when `isLocked` is
false and `batteriesShipped + quantity ≤ threshold`, and then increments
`batteriesShipped` by `quantity`; returns `none` when no document matches. -/
def shipBatteries (c : Contract) (quantity : Nat) : Option Contract :=
  if c.isLocked = false ∧ c.batteriesShipped + quantity ≤ c.threshold then
    some { c with batteriesShipped := c.batteriesShipped + quantity }
  else
    none

/-- Instance method `addNotification` (Contract.js:122-130): pushes one
entry onto `notificationsSent` and saves the document. -/
def addNotification (c : Contract) (email message ntype : String) : Contract :=
  { c with notificationsSent := c.notificationsSent ++ [⟨email, message, ntype⟩] }

end Contract

/-- Status computed by the list-contracts aggregation pipeline
(contracts.js `$addFields`/`$switch`, part_002:29-67): LOCKED if
`isLocked = true`, else EXCEEDED if `(batteriesShipped/threshold)*100 ≥ 100`,
else WARNING if `≥ 80`, else ACTIVE — with no zero-threshold guard. -/
def pipelineStatus (c : Contract) : String :=
  if c.isLocked = true then "LOCKED"
  else if ((c.batteriesShipped : ℚ) / (c.threshold : ℚ)) * 100 ≥ 100 then "EXCEEDED"
  else if ((c.batteriesShipped : ℚ) / (c.threshold : ℚ)) * 100 ≥ 80 then "WARNING"
  else "ACTIVE"

/-! Redis lock service (lockService.js, `src/unnamed/part_003`). -/

/-- State of the one Redis key used to lock a contract: either absent, or
holding the writer's unique `lockValue` together with its absolute expiry
time (`SET ... PX timeout` sets expiry `now + timeout`). Time is an
abstract `Nat` clock in milliseconds. -/
structure LockState where
  value : Option (String × Nat)
deriving Repr, DecidableEq

/-- A Redis GET/NX-visibility check at time `now`: an entry whose expiry
has passed is gone. -/
def lockVisible (st : LockState) (now : Nat) : Option (String × Nat) :=
  match st.value with
  | some (v, exp) => if now < exp then some (v, exp) else none
  | none => none

/-- Service function `acquireLock` (lockService.js): `SET lockKey lockValue PX timeout NX` —
succeeds iff the key is absent (or expired) at time `now`, storing the
caller's unique `lockValue` with expiry `now + timeout`; returns whether
the reply was OK, with the resulting key state. -/
def acquireLock (st : LockState) (now : Nat) (lockValue : String) (timeout : Nat) :
    Bool × LockState :=
  match lockVisible st now with
  | some _ => (false, st)
  | none => (true, ⟨some (lockValue, now + timeout)⟩)

/-- Service function `releaseLock` (lockService.js): an unconditional `DEL lockKey`; it never
compares the stored value with the caller's token and always reports
success. -/
def releaseLock (_st : LockState) : Bool × LockState :=
  (true, ⟨none⟩)

/-- Service function `extendLock` (lockService.js): `EXPIRE lockKey (timeout/1000)` — resets
the expiry when the key exists, returning whether a key was found. -/
def extendLock (st : LockState) (now : Nat) (timeout : Nat) : Bool × LockState :=
  match lockVisible st now with
  | some (v, _) => (true, ⟨some (v, now + timeout)⟩)
  | none => (false, st)

/-! The shipment admission route (`POST /api/shipments`). -/

/-- A Shipment document (shipmentSchema in the shipments route), restricted
to the fields the route sets; `shipmentId` and timestamps are generated
identifiers/wall-clock values and are not modelled. `batteriesShipped` is
the quantity of this shipment. -/
structure Shipment where
  contractId : String
  batteriesShipped : Nat
  status : String
  initiatedBy : String
  blockReason : Option String
  notes : Option String
deriving Repr, DecidableEq

/-- The ledger state touched by one admission: the Contract document
addressed by the request's `contractId` (`none` = no such contract) and
the append-only Shipment collection. -/
structure Ledger where
  contract : Option Contract
  shipments : List Shipment
deriving Repr, DecidableEq

/-- The authenticated requester, as the route reads it from `req.user`. -/
structure UserInfo where
  username : String
  email : String
deriving Repr, DecidableEq

/-- The route's HTTP reply: status code, machine-readable error `code`
(absent on 201 success), human message, and the created shipment document
echoed back on success. -/
structure RouteResponse where
  httpStatus : Nat
  errorCode : Option String
  message : String
  shipment : Option Shipment
deriving Repr, DecidableEq

/-- External calls the route makes, in program order: Mongo session
transaction control, Redis lock acquire/release, ledger document reads and
writes (`contractCondUpdate` is `shipBatteries`' conditional
`findOneAndUpdate`, tagged with whether it matched), the post-commit
`addNotification` save, the email dispatch (tagged with whether the
dispatcher succeeded), and Socket.IO emits. -/
inductive Op where
  | txStart
  | txAbort
  | txCommit
  | lockAcquire (ok : Bool)
  | lockRelease
  | contractRead
  | contractWrite
  | contractCondUpdate (matched : Bool)
  | shipmentWrite
  | notifWrite
  | emailSend (ok : Bool)
  | emit (event : String)
deriving Repr, DecidableEq

/-- The catch handler of the route (shipments route, lines 404-428 of the
concatenated file): `CONTRACT_NOT_FOUND` → 404, `CONTRACT_LOCKED` → 423,
every other thrown message (including `ATOMIC_UPDATE_FAILED`) falls
through to the generic 500 `CREATE_ERROR`. -/
def catchResponse (msg : String) : RouteResponse :=
  if msg = "CONTRACT_NOT_FOUND" then
    ⟨404, some "CONTRACT_NOT_FOUND", "Contract not found", none⟩
  else if msg = "CONTRACT_LOCKED" then
    ⟨423, some "CONTRACT_LOCKED", "Contract is locked. No further shipments allowed.", none⟩
  else
    ⟨500, some "CREATE_ERROR", "Failed to create shipment", none⟩

/-- The audit message pushed by `addNotification` on a blocked shipment
(the source string carries a leading warning glyph, elided here). -/
def limitMessage (contractId : String) : String :=
  "PBR Battery Shipment Limit Reached (Contract: " ++ contractId ++ ")"

/-- The inner `try { ... } finally { releaseLock }` of the route, entered
after the Redis lock was acquired (lines 294-402): load the contract in
the session, throw `CONTRACT_NOT_FOUND` / `CONTRACT_LOCKED`, compare
`newTotal = batteriesShipped + quantity` against the threshold, either
lock the contract and record a BLOCKED shipment or run the conditional
`shipBatteries` update and record an APPROVED one, commit, then (BLOCKED
only) append the audit notification and attempt the email — whose failure
is caught and only logged.  `atWrite` is the state of the contract
document at the moment the conditional `findOneAndUpdate` executes: `id`
when nothing else touched the document between the in-session read and
the write, which the Redis lock is meant to guarantee.  Thrown messages
are routed through `catchResponse`, after the `finally` released the lock
and the outer handler aborted the transaction; the returned trace lists
the external calls in program order. -/
def shipmentTxBody (emailOk : Bool) (atWrite : Contract → Contract) (user : UserInfo)
    (quantity : Nat) (notes : Option String) (L : Ledger) :
    RouteResponse × Ledger × List Op :=
  match L.contract with
  | none =>
      (catchResponse "CONTRACT_NOT_FOUND", L, [Op.contractRead, Op.lockRelease, Op.txAbort])
  | some c =>
      if c.isLocked then
        (catchResponse "CONTRACT_LOCKED", L, [Op.contractRead, Op.lockRelease, Op.txAbort])
      else
        if c.threshold < c.batteriesShipped + quantity then
          -- BLOCKED branch: lock the contract (contract.save), record the
          -- shipment, commit; then, outside the committed transaction,
          -- addNotification and the email attempt, the socket emits, and
          -- the finally's second releaseLock.
          ({ httpStatus := 201, errorCode := none,
             message := "Shipment blocked successfully",
             shipment := some
               { contractId := c.contractId, batteriesShipped := quantity,
                 status := "BLOCKED", initiatedBy := user.username,
                 blockReason := some ("Shipment would exceed threshold ("
                   ++ toString (c.batteriesShipped + quantity) ++ "/"
                   ++ toString c.threshold ++ ")"),
                 notes := notes } },
           { contract := some (Contract.addNotification { c with isLocked := true }
               user.email (limitMessage c.contractId) "THRESHOLD_EXCEEDED"),
             shipments := L.shipments ++
               [{ contractId := c.contractId, batteriesShipped := quantity,
                  status := "BLOCKED", initiatedBy := user.username,
                  blockReason := some ("Shipment would exceed threshold ("
                    ++ toString (c.batteriesShipped + quantity) ++ "/"
                    ++ toString c.threshold ++ ")"),
                  notes := notes }] },
           [Op.contractRead, Op.contractWrite, Op.shipmentWrite, Op.txCommit,
            Op.lockRelease, Op.notifWrite, Op.emailSend emailOk,
            Op.emit "shipment:created", Op.emit "contract:threshold_exceeded",
            Op.lockRelease])
        else
          match (atWrite c).shipBatteries quantity with
          | none =>
              -- `updatedContract` was null: throw ATOMIC_UPDATE_FAILED; the
              -- catch handler has no branch for it, so the reply is the
              -- generic 500 CREATE_ERROR; the aborted transaction leaves
              -- the ledger unchanged.
              (catchResponse "ATOMIC_UPDATE_FAILED", L,
               [Op.contractRead, Op.contractCondUpdate false, Op.lockRelease, Op.txAbort])
          | some c' =>
              ({ httpStatus := 201, errorCode := none,
                 message := "Shipment approved successfully",
                 shipment := some
                   { contractId := c.contractId, batteriesShipped := quantity,
                     status := "APPROVED", initiatedBy := user.username,
                     blockReason := none, notes := notes } },
               { contract := some c',
                 shipments := L.shipments ++
                   [{ contractId := c.contractId, batteriesShipped := quantity,
                      status := "APPROVED", initiatedBy := user.username,
                      blockReason := none, notes := notes }] },
               [Op.contractRead, Op.contractCondUpdate true, Op.shipmentWrite,
                Op.txCommit, Op.lockRelease, Op.emit "shipment:created",
                Op.lockRelease])

/-- The whole `POST /` route (lines 262-429): express-validator rejects a
non-positive quantity with 400 before any transaction; otherwise the
route starts the session transaction, then tries the Redis lock
(`lockFree` is the `acquireLock` result) — on contention it aborts and
replies 423 `CONCURRENT_SHIPMENT`; with the lock held it runs
`shipmentTxBody`. -/
def createShipmentRun (lockFree emailOk : Bool) (atWrite : Contract → Contract)
    (user : UserInfo) (quantity : Nat) (notes : Option String) (L : Ledger) :
    RouteResponse × Ledger × List Op :=
  if quantity < 1 then
    (⟨400, none, "Validation failed", none⟩, L, [])
  else if lockFree = false then
    (⟨423, some "CONCURRENT_SHIPMENT",
      "Another shipment is being processed for this contract. Please try again.", none⟩,
     L, [Op.txStart, Op.lockAcquire false, Op.txAbort])
  else
    match shipmentTxBody emailOk atWrite user quantity notes L with
    | (resp, L', ops) => (resp, L', Op.txStart :: Op.lockAcquire true :: ops)

/-- One serialized `CreateShipment` admission: the route with the lock
uncontended, a healthy email dispatcher, and no interleaved writer
between the in-session read and the conditional update. -/
def createShipment (user : UserInfo) (quantity : Nat) (notes : Option String)
    (L : Ledger) : RouteResponse × Ledger × List Op :=
  createShipmentRun true true id user quantity notes L

/-- A sequence of admissions against the same contract, each one serialized
by the lock; returns the final ledger and the per-request replies in
order. -/
def runAdmissions (user : UserInfo) (L : Ledger) : List Nat → Ledger × List RouteResponse
  | [] => (L, [])
  | q :: qs =>
      match createShipment user q none L with
      | (resp, L', _) =>
          match runAdmissions user L' qs with
          | (Lf, rs) => (Lf, resp :: rs)

/-- The quantity a reply contributed to the persisted total: the shipment's
quantity when its outcome is APPROVED, otherwise 0. -/
def approvedQty (r : RouteResponse) : Nat :=
  match r.shipment with
  | some sh => if sh.status = "APPROVED" then sh.batteriesShipped else 0
  | none => 0

/-- Sum of the admitted quantities over a run's replies. -/
def approvedSum (rs : List RouteResponse) : Nat :=
  (rs.map approvedQty).sum

/-! Concrete scenario inputs. -/

/-- A requester used in the concrete scenarios. -/
def demoUser : UserInfo :=
  { username := "alice", email := "alice at example.com" }

/-- The spec's blocked-shipment scenario contract: threshold 60, 55 shipped,
unlocked. -/
def contractC2 : Contract :=
  { contractId := "PBR-001", deviceCount := 30, batteriesShipped := 55,
    threshold := 60, isLocked := false, notificationsSent := [] }

/-- A fresh contract far below its threshold. -/
def freshContract : Contract :=
  { contractId := "PBR-002", deviceCount := 5, batteriesShipped := 0,
    threshold := 10, isLocked := false, notificationsSent := [] }

/-- A contract already locked by an administrator or a previous block. -/
def lockedContract : Contract :=
  { contractId := "PBR-003", deviceCount := 5, batteriesShipped := 7,
    threshold := 10, isLocked := true, notificationsSent := [] }

/-- A healthy mid-range contract (55 of 60 shipped). -/
def demoContract : Contract :=
  { contractId := "PBR-100", deviceCount := 10, batteriesShipped := 55,
    threshold := 60, isLocked := false, notificationsSent := [] }

/-- A contract whose stored total already exceeds its threshold. -/
def overContract : Contract :=
  { contractId := "PBR-OVER", deviceCount := 1, batteriesShipped := 2,
    threshold := 1, isLocked := false, notificationsSent := [] }

/-- An interleaved writer that locks the contract between the in-session
read and the conditional update (the lock/ledger inconsistency the spec
calls out for the conditional-write miss). -/
def interfere : Contract → Contract :=
  fun c => { c with isLocked := true }

/-- C2: contract `threshold=60, batteriesShipped=55`; request `quantity=10`
→ outcome BLOCKED, `blockReason` mentions `65/60`, the contract becomes
locked, and `batteriesShipped` remains 55. -/
theorem blocked_scenario_65_60 :
    (createShipment demoUser 10 none ⟨some contractC2, []⟩).1.shipment.map Shipment.status
        = some "BLOCKED"
    ∧ (∃ pre post,
        ((createShipment demoUser 10 none ⟨some contractC2, []⟩).1.shipment.bind
          Shipment.blockReason) = some (pre ++ "65/60" ++ post))
    ∧ (createShipment demoUser 10 none ⟨some contractC2, []⟩).2.1.contract.map Contract.isLocked
        = some true
    ∧ (createShipment demoUser 10 none ⟨some contractC2, []⟩).2.1.contract.map
        Contract.batteriesShipped = some 55 := by
  refine ⟨rfl, ⟨"Shipment would exceed threshold (", ")", ?_⟩, rfl, rfl⟩
  rfl

/-! Reduction helpers for the route. -/

/-- With a valid quantity and the lock acquired, the route reduces to the
inner transaction body, its trace prefixed by the transaction start and
the successful lock acquisition. -/
lemma createShipmentRun_lock_ok {q : Nat} (hq : 1 ≤ q) (emailOk : Bool)
    (atWrite : Contract → Contract) (u : UserInfo) (notes : Option String) (L : Ledger) :
    createShipmentRun true emailOk atWrite u q notes L =
      ((shipmentTxBody emailOk atWrite u q notes L).1,
       (shipmentTxBody emailOk atWrite u q notes L).2.1,
       Op.txStart :: Op.lockAcquire true ::
         (shipmentTxBody emailOk atWrite u q notes L).2.2) := by
  unfold createShipmentRun
  rw [if_neg (by omega)]
  simp

/-- With a valid quantity and the lock already held, the route replies 423
`CONCURRENT_SHIPMENT`, leaves the ledger alone, and its trace is just the
transaction start, the failed acquisition, and the abort. -/
lemma createShipmentRun_held {q : Nat} (hq : 1 ≤ q) (emailOk : Bool)
    (atWrite : Contract → Contract) (u : UserInfo) (notes : Option String) (L : Ledger) :
    createShipmentRun false emailOk atWrite u q notes L =
      (⟨423, some "CONCURRENT_SHIPMENT",
         "Another shipment is being processed for this contract. Please try again.", none⟩,
       L, [Op.txStart, Op.lockAcquire false, Op.txAbort]) := by
  unfold createShipmentRun
  rw [if_neg (by omega)]
  simp

/-- One serialized admission preserves the contract document's existence
and threshold, adds exactly the admitted quantity to `batteriesShipped`,
and cannot push a within-threshold total past the threshold. -/
lemma createShipment_step (u : UserInfo) (q : Nat) (c : Contract) (shs : List Shipment) :
    ∃ c', (createShipment u q none ⟨some c, shs⟩).2.1.contract = some c'
      ∧ c'.threshold = c.threshold
      ∧ c'.batteriesShipped =
          c.batteriesShipped + approvedQty (createShipment u q none ⟨some c, shs⟩).1
      ∧ (c.batteriesShipped ≤ c.threshold → c'.batteriesShipped ≤ c.threshold) := by
  unfold createShipment
  by_cases hq : q < 1
  · refine ⟨c, ?_, rfl, ?_, fun h => h⟩
    · simp [createShipmentRun, hq]
    · simp [createShipmentRun, hq, approvedQty]
  · rw [createShipmentRun_lock_ok (show 1 ≤ q by omega)]
    by_cases hl : c.isLocked
    · refine ⟨c, ?_, rfl, ?_, fun h => h⟩
      · simp [shipmentTxBody, hl]
      · simp [shipmentTxBody, hl, catchResponse, approvedQty]
    · by_cases hx : c.threshold < c.batteriesShipped + q
      · refine ⟨Contract.addNotification { c with isLocked := true }
            u.email (limitMessage c.contractId) "THRESHOLD_EXCEEDED", ?_, rfl, ?_, fun h => h⟩
        · simp [shipmentTxBody, hl, hx]
        · simp [shipmentTxBody, hl, hx, approvedQty, Contract.addNotification]
      · have hcond : c.isLocked = false ∧ c.batteriesShipped + q ≤ c.threshold :=
          ⟨by simpa using hl, by omega⟩
        refine ⟨{ c with batteriesShipped := c.batteriesShipped + q }, ?_, rfl, ?_, fun _ => by
          simpa using hcond.2⟩
        · simp [shipmentTxBody, hl, hx, Contract.shipBatteries, hcond]
        · simp [shipmentTxBody, hl, hx, Contract.shipBatteries, hcond, approvedQty]

/-- C1 (amended): for every sequence of serialized `CreateShipment`
admissions against one contract, the final persisted `batteriesShipped`
equals the start value plus the sum of exactly the APPROVED quantities;
and provided the start value does not already exceed the threshold, the
final value never exceeds the threshold (whose stored value the run never
changes). -/
theorem runAdmissions_threshold_safe (u : UserInfo) (qs : List Nat) (L : Ledger)
    (c : Contract) (hc : L.contract = some c) :
    ∃ cf, (runAdmissions u L qs).1.contract = some cf
      ∧ cf.threshold = c.threshold
      ∧ cf.batteriesShipped = c.batteriesShipped + approvedSum (runAdmissions u L qs).2
      ∧ (c.batteriesShipped ≤ c.threshold → cf.batteriesShipped ≤ c.threshold) := by
  induction qs generalizing L c with
  | nil =>
      refine ⟨c, by simpa [runAdmissions] using hc, rfl, ?_, fun h => h⟩
      simp [runAdmissions, approvedSum]
  | cons q qs ih =>
      rcases L with ⟨oc, shs⟩
      simp only [Ledger.mk.injEq] at hc
      rcases hc with hc
      subst hc
      obtain ⟨c1, hc1, hT1, hB1, hmono1⟩ := createShipment_step u q c shs
      rcases hrun : createShipment u q none ⟨some c, shs⟩ with ⟨resp, L1, tr⟩
      rw [hrun] at hc1 hB1
      obtain ⟨cf, hcf, hTf, hBf, hmonof⟩ := ih L1 c1 hc1
      refine ⟨cf, ?_, ?_, ?_, ?_⟩
      · simp [runAdmissions, hrun, hcf]
      · rw [hTf, hT1]
      · simp only [runAdmissions, hrun, approvedSum, List.map_cons, List.sum_cons]
        rcases h2 : runAdmissions u L1 qs with ⟨Lf, rs⟩
        rw [h2] at hcf hBf
        simp only
        have : cf.batteriesShipped = c1.batteriesShipped + approvedSum rs := by
          simpa [approvedSum] using hBf
        simp only at hB1
        rw [this, hB1]
        simp [approvedSum]
        omega
      · intro h
        have h1 : c1.batteriesShipped ≤ c1.threshold := by
          rw [hT1]; exact hmono1 h
        have := hmonof h1
        omega

/-- C1 (counterexample to the claim as stated): with starting
`batteriesShipped = 2` above `threshold = 1`, a run of one request leaves
the persisted total at 2, which exceeds the threshold. -/
theorem runAdmissions_start_above_threshold :
    (runAdmissions demoUser ⟨some overContract, []⟩ [1]).1.contract.map
        Contract.batteriesShipped = some 2
    ∧ (runAdmissions demoUser ⟨some overContract, []⟩ [1]).1.contract.map
        Contract.threshold = some 1
    ∧ ¬(2 ≤ 1) := by
  exact ⟨rfl, rfl, by omega⟩

/-- Witness for `runAdmissions_threshold_safe` at a concrete run: contract
with 55 of 60 shipped, one request of quantity 5. -/
theorem runAdmissions_threshold_safe_witness :
    ∃ cf, (runAdmissions demoUser ⟨some demoContract, []⟩ [5]).1.contract = some cf
      ∧ cf.threshold = demoContract.threshold
      ∧ cf.batteriesShipped = demoContract.batteriesShipped
          + approvedSum (runAdmissions demoUser ⟨some demoContract, []⟩ [5]).2
      ∧ (demoContract.batteriesShipped ≤ demoContract.threshold →
          cf.batteriesShipped ≤ demoContract.threshold) :=
  runAdmissions_threshold_safe demoUser [5] ⟨some demoContract, []⟩ demoContract rfl

/-- C3: for every contract with `isLocked = true`, every valid
`CreateShipment` request that reaches the engine (quantity ≥ 1, lock
acquired) replies with the `CONTRACT_LOCKED` error (HTTP 423), creates no
Shipment record, and leaves the ledger — in particular
`batteriesShipped` — unchanged. -/
theorem locked_contract_rejects_all (emailOk : Bool) (atWrite : Contract → Contract)
    (u : UserInfo) (q : Nat) (notes : Option String) (L : Ledger) (c : Contract)
    (hc : L.contract = some c) (hl : c.isLocked = true) (hq : 1 ≤ q) :
    (createShipmentRun true emailOk atWrite u q notes L).1.errorCode = some "CONTRACT_LOCKED"
    ∧ (createShipmentRun true emailOk atWrite u q notes L).1.httpStatus = 423
    ∧ (createShipmentRun true emailOk atWrite u q notes L).2.1.shipments = L.shipments
    ∧ (createShipmentRun true emailOk atWrite u q notes L).2.1 = L := by
  rw [createShipmentRun_lock_ok hq]
  rcases L with ⟨oc, shs⟩
  simp only [Ledger.mk.injEq] at hc
  rcases hc with hc
  subst hc
  refine ⟨?_, ?_, ?_, ?_⟩ <;> simp [shipmentTxBody, hl, catchResponse]

/-- Witness for `locked_contract_rejects_all` on a concrete locked
contract and a request of quantity 1. -/
theorem locked_contract_rejects_all_witness :
    (createShipmentRun true true id demoUser 1 none ⟨some lockedContract, []⟩).1.errorCode
        = some "CONTRACT_LOCKED"
    ∧ (createShipmentRun true true id demoUser 1 none ⟨some lockedContract, []⟩).1.httpStatus
        = 423
    ∧ (createShipmentRun true true id demoUser 1 none
        ⟨some lockedContract, []⟩).2.1.shipments = ([] : List Shipment)
    ∧ (createShipmentRun true true id demoUser 1 none ⟨some lockedContract, []⟩).2.1
        = ⟨some lockedContract, []⟩ :=
  locked_contract_rejects_all true id demoUser 1 none ⟨some lockedContract, []⟩
    lockedContract rfl rfl (by omega)

/-- C4 (counterexample to the claim as stated): with the lock already held,
the route's machine-readable error code is `CONCURRENT_SHIPMENT`, not the
`CONCURRENT_OPERATION` the claim names. -/
theorem concurrent_code_not_concurrent_operation :
    (createShipmentRun false true id demoUser 5 none ⟨some demoContract, []⟩).1.errorCode
        = some "CONCURRENT_SHIPMENT"
    ∧ (createShipmentRun false true id demoUser 5 none ⟨some demoContract, []⟩).1.errorCode
        ≠ some "CONCURRENT_OPERATION" := by
  exact ⟨rfl, by decide⟩

/-- C4 (amended): whenever the lock for the contract key is already held, a
valid request replies immediately with HTTP 423 and machine-readable code
`CONCURRENT_SHIPMENT`, the ledger is untouched, and the call trace —
transaction start, failed acquisition, abort — contains no ledger
document read or write. -/
theorem lock_held_returns_concurrent_shipment (emailOk : Bool)
    (atWrite : Contract → Contract) (u : UserInfo) (q : Nat) (notes : Option String)
    (L : Ledger) (hq : 1 ≤ q) :
    (createShipmentRun false emailOk atWrite u q notes L).1 =
      ⟨423, some "CONCURRENT_SHIPMENT",
        "Another shipment is being processed for this contract. Please try again.", none⟩
    ∧ (createShipmentRun false emailOk atWrite u q notes L).2.1 = L
    ∧ (createShipmentRun false emailOk atWrite u q notes L).2.2 =
        [Op.txStart, Op.lockAcquire false, Op.txAbort]
    ∧ ∀ op ∈ (createShipmentRun false emailOk atWrite u q notes L).2.2,
        op ≠ Op.contractRead ∧ op ≠ Op.contractWrite ∧ op ≠ Op.shipmentWrite
        ∧ op ≠ Op.notifWrite ∧ ∀ m, op ≠ Op.contractCondUpdate m := by
  rw [createShipmentRun_held hq]
  refine ⟨rfl, rfl, rfl, ?_⟩
  intro op hop
  simp only [List.mem_cons, List.not_mem_nil, or_false] at hop
  rcases hop with h | h | h <;> subst h <;> exact ⟨by decide, by decide, by decide, by decide,
    fun m => by cases m <;> decide⟩

/-- Witness for `lock_held_returns_concurrent_shipment` at a concrete
held-lock request. -/
theorem lock_held_returns_concurrent_shipment_witness :
    (createShipmentRun false true id demoUser 5 none ⟨some demoContract, []⟩).1 =
      ⟨423, some "CONCURRENT_SHIPMENT",
        "Another shipment is being processed for this contract. Please try again.", none⟩
    ∧ (createShipmentRun false true id demoUser 5 none ⟨some demoContract, []⟩).2.1
        = ⟨some demoContract, []⟩
    ∧ (createShipmentRun false true id demoUser 5 none ⟨some demoContract, []⟩).2.2 =
        [Op.txStart, Op.lockAcquire false, Op.txAbort]
    ∧ ∀ op ∈ (createShipmentRun false true id demoUser 5 none ⟨some demoContract, []⟩).2.2,
        op ≠ Op.contractRead ∧ op ≠ Op.contractWrite ∧ op ≠ Op.shipmentWrite
        ∧ op ≠ Op.notifWrite ∧ ∀ m, op ≠ Op.contractCondUpdate m :=
  lock_held_returns_concurrent_shipment true id demoUser 5 none ⟨some demoContract, []⟩
    (by omega)

/-- C5 (counterexample to the claim as stated): when an interleaved writer
locks the contract between the in-session read and the conditional
update, the conditional `findOneAndUpdate` matches no document and the
route replies with the generic `CREATE_ERROR` (HTTP 500) — not the
`ATOMIC_UPDATE_CONFLICT` code the claim names — while the aborted
transaction leaves the ledger unchanged. -/
theorem conflict_code_not_atomic_update_conflict :
    (createShipmentRun true true interfere demoUser 1 none
        ⟨some freshContract, []⟩).1.errorCode = some "CREATE_ERROR"
    ∧ (createShipmentRun true true interfere demoUser 1 none
        ⟨some freshContract, []⟩).1.errorCode ≠ some "ATOMIC_UPDATE_CONFLICT"
    ∧ (createShipmentRun true true interfere demoUser 1 none
        ⟨some freshContract, []⟩).2.1 = ⟨some freshContract, []⟩ := by
  exact ⟨rfl, by decide, rfl⟩

/-- C5 (amended): whenever the conditional atomic update at write time
matches no document, the admission aborts the transaction, leaving the
ledger unchanged, and replies with the generic HTTP 500 `CREATE_ERROR` —
the thrown `ATOMIC_UPDATE_FAILED` has no dedicated branch in the catch
handler, so no `ATOMIC_UPDATE_CONFLICT` code is ever surfaced. -/
theorem cond_update_miss_returns_create_error (emailOk : Bool)
    (atWrite : Contract → Contract) (u : UserInfo) (q : Nat) (notes : Option String)
    (c : Contract) (shs : List Shipment)
    (hl : c.isLocked = false) (hle : c.batteriesShipped + q ≤ c.threshold) (hq : 1 ≤ q)
    (hmiss : (atWrite c).shipBatteries q = none) :
    (createShipmentRun true emailOk atWrite u q notes ⟨some c, shs⟩).1 =
      ⟨500, some "CREATE_ERROR", "Failed to create shipment", none⟩
    ∧ (createShipmentRun true emailOk atWrite u q notes ⟨some c, shs⟩).2.1
        = ⟨some c, shs⟩ := by
  rw [createShipmentRun_lock_ok hq]
  have hx : ¬ c.threshold < c.batteriesShipped + q := by omega
  refine ⟨?_, ?_⟩ <;> simp [shipmentTxBody, hl, hx, hmiss, catchResponse]

/-- Witness for `cond_update_miss_returns_create_error`: the interleaved
locking writer against the fresh contract, quantity 1. -/
theorem cond_update_miss_returns_create_error_witness :
    (createShipmentRun true true interfere demoUser 1 none ⟨some freshContract, []⟩).1 =
      ⟨500, some "CREATE_ERROR", "Failed to create shipment", none⟩
    ∧ (createShipmentRun true true interfere demoUser 1 none
        ⟨some freshContract, []⟩).2.1 = ⟨some freshContract, []⟩ :=
  cond_update_miss_returns_create_error true interfere demoUser 1 none freshContract []
    rfl (by decide) (by omega) rfl

/-- C6 (what the code actually does): for every request that passes
validation, the call trace begins with the transaction start and only
then the Redis lock acquisition — `session.startTransaction()` runs
before `acquireLock`, the reverse of the order the claim (and the repo
README's business-logic flow) states. -/
theorem tx_opened_before_lock_acquired (lockFree emailOk : Bool)
    (atWrite : Contract → Contract) (u : UserInfo) (q : Nat) (notes : Option String)
    (L : Ledger) (hq : 1 ≤ q) :
    ∃ rest, (createShipmentRun lockFree emailOk atWrite u q notes L).2.2 =
      Op.txStart :: Op.lockAcquire lockFree :: rest := by
  cases lockFree
  · exact ⟨[Op.txAbort], by rw [createShipmentRun_held hq]⟩
  · exact ⟨(shipmentTxBody emailOk atWrite u q notes L).2.2,
      by rw [createShipmentRun_lock_ok hq]⟩

/-- Witness for `tx_opened_before_lock_acquired` on a concrete request. -/
theorem tx_opened_before_lock_acquired_witness :
    ∃ rest, (createShipmentRun true true id demoUser 1 none
        ⟨some freshContract, []⟩).2.2 = Op.txStart :: Op.lockAcquire true :: rest :=
  tx_opened_before_lock_acquired true true id demoUser 1 none ⟨some freshContract, []⟩
    (by omega)

/-- C7 (counterexample to the claim as stated): in the concrete blocked
run of the 65/60 scenario, the single `addNotification` write sits after
`commitTransaction` in the call trace — not before or inside the
transaction that set `isLocked = true`. -/
theorem notification_appended_after_commit_concrete :
    (createShipment demoUser 10 none ⟨some contractC2, []⟩).2.2 =
      [Op.txStart, Op.lockAcquire true, Op.contractRead, Op.contractWrite,
       Op.shipmentWrite, Op.txCommit, Op.lockRelease, Op.notifWrite, Op.emailSend true,
       Op.emit "shipment:created", Op.emit "contract:threshold_exceeded", Op.lockRelease]
    ∧ ((createShipment demoUser 10 none ⟨some contractC2, []⟩).2.2.count Op.notifWrite = 1)
    ∧ ((createShipment demoUser 10 none ⟨some contractC2, []⟩).2.2.indexOf Op.txCommit <
        (createShipment demoUser 10 none ⟨some contractC2, []⟩).2.2.indexOf Op.notifWrite) := by
  refine ⟨rfl, by decide, by decide⟩

/-- C7 (amended): on every BLOCKED outcome the engine appends the audit
notification to the Contract *after* the transaction has committed, as a
separate post-commit write (in the trace, `txCommit` strictly precedes
`notifWrite`); and a failure of the downstream email dispatcher is caught
and logged only — it changes neither the reply nor the committed ledger
state, which still carries the lock and the appended notification. -/
theorem blocked_notification_post_commit (emailOk : Bool) (atWrite : Contract → Contract)
    (u : UserInfo) (q : Nat) (notes : Option String) (c : Contract) (shs : List Shipment)
    (hl : c.isLocked = false) (hx : c.threshold < c.batteriesShipped + q) (hq : 1 ≤ q) :
    (createShipmentRun true emailOk atWrite u q notes ⟨some c, shs⟩).2.1.contract =
      some (Contract.addNotification { c with isLocked := true } u.email
        (limitMessage c.contractId) "THRESHOLD_EXCEEDED")
    ∧ (createShipmentRun true emailOk atWrite u q notes ⟨some c, shs⟩).2.2.indexOf
          Op.txCommit <
        (createShipmentRun true emailOk atWrite u q notes ⟨some c, shs⟩).2.2.indexOf
          Op.notifWrite
    ∧ Op.notifWrite ∈ (createShipmentRun true emailOk atWrite u q notes ⟨some c, shs⟩).2.2
    ∧ (createShipmentRun true false atWrite u q notes ⟨some c, shs⟩).1 =
        (createShipmentRun true true atWrite u q notes ⟨some c, shs⟩).1
    ∧ (createShipmentRun true false atWrite u q notes ⟨some c, shs⟩).2.1 =
        (createShipmentRun true true atWrite u q notes ⟨some c, shs⟩).2.1 := by
  simp only [createShipmentRun_lock_ok hq]
  refine ⟨?_, ?_, ?_, ?_, ?_⟩ <;>
    simp [shipmentTxBody, hl, hx, List.indexOf_cons, List.count_cons]

/-- Witness for `blocked_notification_post_commit`: the 65/60 scenario. -/
theorem blocked_notification_post_commit_witness :
    (createShipmentRun true true id demoUser 10 none ⟨some contractC2, []⟩).2.1.contract =
      some (Contract.addNotification { contractC2 with isLocked := true } demoUser.email
        (limitMessage contractC2.contractId) "THRESHOLD_EXCEEDED")
    ∧ (createShipmentRun true true id demoUser 10 none ⟨some contractC2, []⟩).2.2.indexOf
          Op.txCommit <
        (createShipmentRun true true id demoUser 10 none ⟨some contractC2, []⟩).2.2.indexOf
          Op.notifWrite
    ∧ Op.notifWrite ∈ (createShipmentRun true true id demoUser 10 none
        ⟨some contractC2, []⟩).2.2
    ∧ (createShipmentRun true false id demoUser 10 none ⟨some contractC2, []⟩).1 =
        (createShipmentRun true true id demoUser 10 none ⟨some contractC2, []⟩).1
    ∧ (createShipmentRun true false id demoUser 10 none ⟨some contractC2, []⟩).2.1 =
        (createShipmentRun true true id demoUser 10 none ⟨some contractC2, []⟩).2.1 :=
  blocked_notification_post_commit true id demoUser 10 none contractC2 [] rfl (by decide)
    (by omega)

/-- C8: release idempotence holds (an unconditional DEL reports success on
an absent or already-released key), but the safety half of the claim
fails: `releaseLock` never compares the stored token with the caller's,
so after holder A's token expires and holder B acquires the same key, A's
late release reports success while deleting B's still-unexpired token —
whereupon a third client can acquire the key while B still believes it
holds the lock. -/
theorem release_deletes_other_holders_token :
    -- releasing an absent (already released / expired) key returns success
    releaseLock ⟨none⟩ = (true, ⟨none⟩)
    -- releasing twice returns success both times
    ∧ releaseLock (releaseLock ⟨some ("holder-A", 10000)⟩).2 = (true, ⟨none⟩)
    -- A acquires at t = 0 with ttl 10000
    ∧ acquireLock ⟨none⟩ 0 "holder-A" 10000 = (true, ⟨some ("holder-A", 10000)⟩)
    -- A's token has expired at t = 11000, so B acquires the same key
    ∧ acquireLock ⟨some ("holder-A", 10000)⟩ 11000 "holder-B" 10000
        = (true, ⟨some ("holder-B", 21000)⟩)
    -- at t = 12000, B's token is still live
    ∧ lockVisible ⟨some ("holder-B", 21000)⟩ 12000 = some ("holder-B", 21000)
    -- yet A's late release reports success and deletes B's token
    ∧ releaseLock ⟨some ("holder-B", 21000)⟩ = (true, ⟨none⟩)
    -- so a third client acquires while B's ttl has not elapsed
    ∧ (acquireLock ⟨none⟩ 12000 "holder-C" 10000).1 = true := by
  exact ⟨rfl, rfl, rfl, rfl, rfl, rfl, rfl⟩

/-- C9: for every contract with a positive threshold, the stored-field
`status` virtual equals the claim's rule — LOCKED if `isLocked`, else
EXCEEDED when `batteriesShipped/threshold ≥ 1`, else WARNING when the
ratio is `≥ 0.8`, else ACTIVE. -/
theorem status_matches_ratio_spec (c : Contract) (h : 1 ≤ c.threshold) :
    c.status =
      if c.isLocked then "LOCKED"
      else if (c.batteriesShipped : ℚ) / (c.threshold : ℚ) ≥ 1 then "EXCEEDED"
      else if (c.batteriesShipped : ℚ) / (c.threshold : ℚ) ≥ (0.8 : ℚ) then "WARNING"
      else "ACTIVE" := by
  unfold Contract.status Contract.thresholdPercentage
  rw [if_pos (show 0 < c.threshold by omega)]
  have h1 : ((c.batteriesShipped : ℚ) / (c.threshold : ℚ)) * 100 ≥ 100 ↔
      (c.batteriesShipped : ℚ) / (c.threshold : ℚ) ≥ 1 := by
    constructor <;> intro hh <;> linarith
  have h2 : ((c.batteriesShipped : ℚ) / (c.threshold : ℚ)) * 100 ≥ 80 ↔
      (c.batteriesShipped : ℚ) / (c.threshold : ℚ) ≥ (0.8 : ℚ) := by
    constructor <;> intro hh <;> [linarith; nlinarith [hh]]
  by_cases hl : c.isLocked
  · simp [hl]
  · simp only [hl, if_false]
    rw [if_congr h1 rfl (if_congr h2 rfl rfl)]

/-- Witness for `status_matches_ratio_spec` at the 55-of-60 contract. -/
theorem status_matches_ratio_spec_witness :
    1 ≤ demoContract.threshold ∧
    demoContract.status =
      if demoContract.isLocked then "LOCKED"
      else if (demoContract.batteriesShipped : ℚ) / (demoContract.threshold : ℚ) ≥ 1 then
        "EXCEEDED"
      else if (demoContract.batteriesShipped : ℚ) / (demoContract.threshold : ℚ) ≥ (0.8 : ℚ)
          then "WARNING"
      else "ACTIVE" :=
  ⟨by decide, status_matches_ratio_spec demoContract (by decide)⟩

/-- C10: for every contract with a positive threshold, the status the
list-contracts aggregation pipeline computes coincides with the Contract
model's `status` virtual. -/
theorem pipeline_status_agrees_with_virtual (c : Contract) (h : 1 ≤ c.threshold) :
    pipelineStatus c = c.status := by
  unfold pipelineStatus Contract.status Contract.thresholdPercentage
  rw [if_pos (show 0 < c.threshold by omega)]

/-- Witness for `pipeline_status_agrees_with_virtual` at the 55-of-60
contract (a WARNING-range value). -/
theorem pipeline_status_agrees_with_virtual_witness :
    pipelineStatus demoContract = demoContract.status :=
  pipeline_status_agrees_with_virtual demoContract (by decide)
